import Mathlib

/-!
Verification of the Claudia assistant repository.

Shallow embedding of the token-management logic (`ms_graph_client.py`),
the initial credential creation in the OAuth redirect handler
(`OAuthHandler.py`), the availability engine
(`find_free_time_slot` in `ms_graph_client.py`) and the MCP tool
invocation bridge (`SlackClaudiaWorkerFunctionMCP.py`).

Times are modelled as integers (seconds for token expiry timestamps,
minutes since midnight for the availability engine).  DynamoDB is
modelled as a partial map from user ids to credential records.  The
issuer (Microsoft token endpoint) and the MCP subprocess are modelled
as explicit response values passed to the functions.
-/

/-- Substring test: Python `needle in hay`. -/
def containsSubstr (needle hay : String) : Bool :=
  go needle.toList hay.toList
where
  go (n : List Char) : List Char → Bool
    | [] => n.isEmpty
    | c :: t => n.isPrefixOf (c :: t) || go n t

/-- A credential record stored in the `ClaudiaUserTable` DynamoDB table.
`ms_token_expires_at` is optional: `get_valid_access_token` guards with
`if not expires_at_str or ...`, and the initial `put_item` in
`OAuthHandler.py` does not set it. -/
structure Record where
  ms_access_token : String
  ms_refresh_token : String
  ms_token_expires_at : Option Int
deriving DecidableEq, Repr

/-- The credential store: a partial map from user id to record. -/
def Table := String → Option Record

/-- The issuer's response to the refresh-token exchange.
`raise` models `requests.post` raising (network error) or
`response.json()` raising (malformed body); `errorResp` models a JSON
body containing an `error` key, carrying the optional
`error_description`; `successResp` carries `access_token`, the optional
rotated `refresh_token` and the optional `expires_in`. -/
inductive IssuerResponse where
  | raise
  | errorResp (error_description : Option String)
  | successResp (access_token : String) (refresh_token : Option String)
      (expires_in : Option Int)
deriving DecidableEq, Repr

/-- Output of one token-management call: the Python return value
(`Except.error ()` models an uncaught exception propagating), the
resulting table, and counters for network calls, `update_item`/`put_item`
writes and `delete_item` deletions. -/
structure StepOut where
  ret : Except Unit (Option String)
  table : Table
  networkCalls : Nat
  writes : Nat
  deletes : Nat

/-- Embedding of `get_tokens_for_user` (ms_graph_client.py:32).  The point read
`table.get_item` may itself raise (`lookupFails`); the `except` clause
logs and returns `None`. -/
def get_tokens_for_user (lookupFails : Bool) (table : Table)
    (user_id : String) : Option Record :=
  if lookupFails then none else table user_id

/-- Embedding of `refresh_and_save_tokens` (ms_graph_client.py:40): posts the refresh
grant, on an error body deletes the record when `"invalid_grant"` occurs
in the `error_description` (defaulted to `""`) and returns `None`; on a
success body computes `expires_at = now + (expires_in - 300)`
(`expires_in` defaulting to 3600), overwrites the three token fields via
`update_item`, and returns the new access token.  `now` stands for
`datetime.utcnow()`. -/
def refresh_and_save_tokens (now : Int) (user_id : String)
    (refresh_token : String) (resp : IssuerResponse) (table : Table) :
    StepOut :=
  match resp with
  | .raise => ⟨.error (), table, 1, 0, 0⟩
  | .errorResp desc =>
      if containsSubstr "invalid_grant" (desc.getD "") then
        ⟨.ok none, fun u => if u = user_id then none else table u, 1, 0, 1⟩
      else
        ⟨.ok none, table, 1, 0, 0⟩
  | .successResp a r e =>
      let new_refresh_token := r.getD refresh_token
      let expires_in := e.getD 3600
      let expires_at := now + (expires_in - 300)
      ⟨.ok (some a),
       fun u => if u = user_id then
          some ⟨a, new_refresh_token, some expires_at⟩ else table u,
       1, 1, 0⟩

/-- Embedding of `get_valid_access_token` (ms_graph_client.py:77): point-reads the
record; if absent returns `None`; if `ms_token_expires_at` is unset or
in the past, delegates to `refresh_and_save_tokens` with the stored
refresh token; otherwise returns the stored access token. -/
def get_valid_access_token (now : Int) (lookupFails : Bool)
    (user_id : String) (resp : IssuerResponse) (table : Table) : StepOut :=
  match get_tokens_for_user lookupFails table user_id with
  | none => ⟨.ok none, table, 0, 0, 0⟩
  | some user_data =>
      match user_data.ms_token_expires_at with
      | none =>
          refresh_and_save_tokens now user_id user_data.ms_refresh_token
            resp table
      | some expires_at =>
          if expires_at < now then
            refresh_and_save_tokens now user_id user_data.ms_refresh_token
              resp table
          else
            ⟨.ok (some user_data.ms_access_token), table, 0, 0, 0⟩

/-- The `table.put_item` performed by `OAuthHandler.lambda_handler`
(OAuthHandler.py:91) after a successful authorization-code exchange:
the stored item has `user_id`, `ms_access_token` and `ms_refresh_token`
and no `ms_token_expires_at` attribute. -/
def oauth_store_initial (user_id access_token refresh_token : String)
    (table : Table) : Table :=
  fun u => if u = user_id then
      some ⟨access_token, refresh_token, none⟩ else table u

/-- Busy-interval overlap check against a candidate slot
(ms_graph_client.py:178): `any(bs < slot_end and be > slot_start ...)`. -/
def overlapsAny (busy : List (Nat × Nat)) (slot_start slot_end : Nat) : Bool :=
  busy.any (fun b => decide (b.1 < slot_end) && decide (b.2 > slot_start))

/-- The scan loop of `find_free_time_slot` (ms_graph_client.py:173):
while `slot_start + duration <= day_end`, accept the first candidate
with no overlap, else advance by 15 minutes.  Times are minutes since
midnight on the requested date. -/
def findSlotLoop (busy : List (Nat × Nat)) (duration day_end : Nat)
    (slot_start : Nat) : Option (Nat × Nat) :=
  if _h : slot_start + duration ≤ day_end then
    if overlapsAny busy slot_start (slot_start + duration) then
      findSlotLoop busy duration day_end (slot_start + 15)
    else
      some (slot_start, slot_start + duration)
  else none
termination_by day_end + 1 - slot_start
decreasing_by omega

/-- Python list sort on pairs: lexicographic ascending, as used by
`busy_times.sort()` (ms_graph_client.py:164). -/
def sortBusy (busy : List (Nat × Nat)) : List (Nat × Nat) :=
  busy.mergeSort (fun a b =>
    decide (a.1 < b.1) || (decide (a.1 = b.1) && decide (a.2 ≤ b.2)))

/-- Embedding of `find_free_time_slot` (ms_graph_client.py:149) after the busy
intervals have been extracted from the calendar events: sorts them,
sets the window to 08:00-18:00 (480-1080 minutes), replaces the lower
bound by `preferred_start_time` when given, and scans. -/
def find_free_time_slot (busy : List (Nat × Nat)) (duration_minutes : Nat)
    (preferred_start_time : Option Nat) : Option (Nat × Nat) :=
  let busy_times := sortBusy busy
  let day_start := 480
  let day_end := 1080
  let day_start := preferred_start_time.getD day_start
  findSlotLoop busy_times duration_minutes day_end day_start

/-- A parsed event-boundary instant: the clock value obtained from
`dateutil.parser.parse` together with whether the parsed datetime
carried timezone information (`tzinfo is None` when `hasTz = false`). -/
structure ParsedInstant where
  minutes : Nat
  hasTz : Bool
deriving DecidableEq, Repr

/-- The naive-instant handling of `find_free_time_slot`
(ms_graph_client.py:158): `if dt.tzinfo is None: dt =
dt.replace(tzinfo=timezone.utc)` — the clock value is kept and the
instant is marked as UTC. -/
def ensureTzAware (i : ParsedInstant) : ParsedInstant :=
  if i.hasTz then i else ⟨i.minutes, true⟩

/-- Embedding of `find_free_time_slot` from the parsed event boundaries: every
instant is passed through `ensureTzAware` and its clock value used; the
function always returns normally (there is no failure path for naive
instants). -/
def find_free_time_slot_ev (events : List (ParsedInstant × ParsedInstant))
    (duration_minutes : Nat) (preferred_start_time : Option Nat) :
    Option (Nat × Nat) :=
  let busy := events.map (fun p =>
    ((ensureTzAware p.1).minutes, (ensureTzAware p.2).minutes))
  find_free_time_slot busy duration_minutes preferred_start_time

/-- The MCP JSON-RPC request envelope built by `_create_mcp_request`
(SlackClaudiaWorkerFunctionMCP.py:60); `jsonrpc` and `rpcId` are the
constant fields `"2.0"` and `1`. -/
structure MCPRequest where
  jsonrpc : String
  rpcId : Nat
  method : String
  toolName : String
  arguments : List (String × String)
deriving DecidableEq, Repr

def create_mcp_request (tool_name : String)
    (parameters : List (String × String)) : MCPRequest :=
  ⟨"2.0", 1, "tools/call", tool_name, parameters⟩

/-- A parsed JSON-RPC body from the MCP subprocess: a `result` key, an
`error` key (with the stringified error info), or neither. -/
inductive MCPResponse where
  | result (data : String)
  | error (error_info : String)
  | other
deriving DecidableEq, Repr

/-- Outcome of one subprocess run (`_execute_mcp_subprocess`,
SlackClaudiaWorkerFunctionMCP.py:83): transport-level failures —
timeout (`TimeoutExpired`), crash (nonzero return code or empty
stdout), malformed stdout (`JSONDecodeError`) or any other exception —
versus a parsed response. -/
inductive SubprocResult where
  | timeout
  | crash
  | malformed
  | response (r : MCPResponse)
deriving DecidableEq, Repr

/-- The classified result dict returned by `_process_mcp_response`
and `call_mcp_tool`. -/
inductive CallResult where
  | ok (data : String)
  | authRequired
  | toolError (msg : String)
  | invalidTool (tool : String)
  | maxRetriesExceeded (tool : String)
deriving DecidableEq, Repr

/-- Python `str.lower()`: lowercase every character (as
`String.toLower` does, character by character). -/
def pyLower (s : String) : String :=
  String.mk (s.data.map Char.toLower)

/-- Embedding of `_process_mcp_response` (SlackClaudiaWorkerFunctionMCP.py:139):
`result` key → success; `error` key → `authentication_required` when
the lowercased error text contains `"authentication"` or `"login"`,
else `tool_error`; anything else → `None`. -/
def process_mcp_response (r : MCPResponse) : Option CallResult :=
  match r with
  | .result d => some (.ok d)
  | .error info =>
      if containsSubstr "authentication" (pyLower info)
          || containsSubstr "login" (pyLower info) then
        some .authRequired
      else
        some (.toolError info)
  | .other => none

/-- Embedding of `_execute_mcp_subprocess` (SlackClaudiaWorkerFunctionMCP.py:83):
transport failures yield `None`, a parsed response is classified. -/
def execute_mcp_subprocess (s : SubprocResult) : Option CallResult :=
  match s with
  | .timeout => none
  | .crash => none
  | .malformed => none
  | .response r => process_mcp_response r

/-- The retry loop of `call_mcp_tool`
(SlackClaudiaWorkerFunctionMCP.py:195): `for attempt in
range(max_retries + 1)`, invoking the subprocess with the same request
each time; a non-`None` classification returns immediately, `None`
retries; exhaustion yields `max_retries_exceeded`.  `world i req` is
the subprocess outcome of attempt `i` on request `req`; the returned
list records the request sent on each invocation, in order. -/
def call_mcp_tool_loop (world : Nat → MCPRequest → SubprocResult)
    (tool_name : String) (req : MCPRequest) (i : Nat) :
    Nat → CallResult × List MCPRequest
  | 0 => (.maxRetriesExceeded tool_name, [])
  | n + 1 =>
      match execute_mcp_subprocess (world i req) with
      | some r => (r, [req])
      | none =>
          let rest := call_mcp_tool_loop world tool_name req (i + 1) n
          (rest.1, req :: rest.2)

/-- The allow-list built in `MCPClient.__init__`
(SlackClaudiaWorkerFunctionMCP.py:26). -/
def available_tools : List String :=
  ["list-calendar-events", "get-calendar-event", "create-calendar-event",
   "update-calendar-event", "delete-calendar-event", "get-calendar-view",
   "list-calendars",
   "list-mail-messages", "send-mail", "get-mail-message",
   "delete-mail-message", "list-mail-folders", "list-mail-folder-messages",
   "list-todo-tasks", "create-todo-task", "update-todo-task",
   "delete-todo-task", "get-todo-task", "list-todo-task-lists",
   "list-outlook-contacts", "get-outlook-contact", "create-outlook-contact",
   "update-outlook-contact", "delete-outlook-contact",
   "get-current-user",
   "list-drives", "get-drive-root-item", "list-folder-files",
   "list-chats", "get-chat", "list-chat-messages", "send-chat-message"]

/-- Embedding of `call_mcp_tool` (SlackClaudiaWorkerFunctionMCP.py:171): rejects
tools outside the allow-list, builds the request envelope once, then
runs the retry loop with `max_retries + 1` total attempts
(`max_retries` defaults to 2). -/
def call_mcp_tool (world : Nat → MCPRequest → SubprocResult)
    (max_retries : Nat) (tool_name : String)
    (parameters : List (String × String)) : CallResult × List MCPRequest :=
  if tool_name ∈ available_tools then
    let mcp_request := create_mcp_request tool_name parameters
    call_mcp_tool_loop world tool_name mcp_request 0 (max_retries + 1)
  else
    (.invalidTool tool_name, [])

/-- C1: for every user whose credential record exists and whose
`expires_at` is strictly in the future, `get_valid_access_token`
returns the stored access token unchanged, performs zero network calls,
zero writes and zero deletions, leaves the store unchanged, and a
second call in the same state returns the same token again with no
side effects. -/
theorem C1_hot_path (now : Int) (table : Table) (user_id : String)
    (resp resp2 : IssuerResponse) (rec : Record) (expiry : Int)
    (hrec : table user_id = some rec)
    (hexp : rec.ms_token_expires_at = some expiry)
    (hfut : now < expiry) :
    (get_valid_access_token now false user_id resp table).ret
        = Except.ok (some rec.ms_access_token)
    ∧ (get_valid_access_token now false user_id resp table).networkCalls = 0
    ∧ (get_valid_access_token now false user_id resp table).writes = 0
    ∧ (get_valid_access_token now false user_id resp table).deletes = 0
    ∧ (get_valid_access_token now false user_id resp table).table = table
    ∧ (get_valid_access_token now false user_id resp2
        (get_valid_access_token now false user_id resp table).table).ret
        = Except.ok (some rec.ms_access_token)
    ∧ (get_valid_access_token now false user_id resp2
        (get_valid_access_token now false user_id resp table).table).networkCalls = 0
    ∧ (get_valid_access_token now false user_id resp2
        (get_valid_access_token now false user_id resp table).table).writes = 0
    ∧ (get_valid_access_token now false user_id resp2
        (get_valid_access_token now false user_id resp table).table).deletes = 0 := by
  have hnl : ¬ expiry < now := not_lt.mpr hfut.le
  simp [get_valid_access_token, get_tokens_for_user, hrec, hexp, hnl]

/-- Witness for C1 at a concrete store. -/
theorem C1_hot_path_witness :
    (get_valid_access_token 0 false "U1" IssuerResponse.raise
        (fun u => if u = "U1" then some ⟨"tokA", "tokR", some 1000⟩ else none)).ret
      = Except.ok (some "tokA") := by
  exact (C1_hot_path 0
    (fun u => if u = "U1" then some ⟨"tokA", "tokR", some 1000⟩ else none)
    "U1" .raise .raise ⟨"tokA", "tokR", some 1000⟩ 1000 rfl rfl
    (by decide)).1

/-- C2: for a record whose `expires_at` is absent or in the past,
`get_valid_access_token` performs exactly one refresh exchange whatever
the issuer answers; on issuer success it returns the new access token
and overwrites the record with the new access token, the issuer's
rotated refresh token when present (keeping the old one otherwise), and
`expires_at` equal to the issuer-reported expiry (`now + expires_in`)
minus exactly the 300-second safety margin. -/
theorem C2_refresh_on_stale (now : Int) (table : Table) (user_id : String)
    (rec : Record) (a : String) (r : Option String) (ei : Option Int)
    (hrec : table user_id = some rec)
    (hstale : rec.ms_token_expires_at = none ∨
      ∃ e, rec.ms_token_expires_at = some e ∧ e < now) :
    (∀ resp, (get_valid_access_token now false user_id resp table).networkCalls = 1)
    ∧ (get_valid_access_token now false user_id
        (.successResp a r ei) table).ret = Except.ok (some a)
    ∧ (get_valid_access_token now false user_id
        (.successResp a r ei) table).table user_id
      = some ⟨a, r.getD rec.ms_refresh_token, some (now + ei.getD 3600 - 300)⟩
    ∧ (get_valid_access_token now false user_id
        (.successResp a r ei) table).writes = 1 := by
  have key : ∀ resp, get_valid_access_token now false user_id resp table
      = refresh_and_save_tokens now user_id rec.ms_refresh_token resp table := by
    intro resp
    rcases hstale with hn | ⟨e, he, hlt⟩
    · simp [get_valid_access_token, get_tokens_for_user, hrec, hn]
    · simp [get_valid_access_token, get_tokens_for_user, hrec, he, hlt]
  refine ⟨fun resp => ?_, ?_, ?_, ?_⟩
  · rw [key]; cases resp with
    | raise => rfl
    | errorResp d => simp only [refresh_and_save_tokens]; split <;> rfl
    | successResp a r e => rfl
  · rw [key]; rfl
  · rw [key]
    simp [refresh_and_save_tokens]
    omega
  · rw [key]; rfl

/-- Witness for C2 at a concrete store (expiry in the past, issuer
omits the rotated refresh token, reports `expires_in = 3600`). -/
theorem C2_refresh_on_stale_witness :
    (get_valid_access_token 2000 false "U1"
        (.successResp "newA" none (some 3600))
        (fun u => if u = "U1" then some ⟨"tokA", "tokR", some 1000⟩ else none)).table "U1"
      = some ⟨"newA", "tokR", some 5300⟩ := by
  exact (C2_refresh_on_stale 2000
    (fun u => if u = "U1" then some ⟨"tokA", "tokR", some 1000⟩ else none)
    "U1" ⟨"tokA", "tokR", some 1000⟩ "newA" none (some 3600) rfl
    (Or.inr ⟨1000, rfl, by decide⟩)).2.2.1

/-- C3: when the refresh exchange fails with an error whose
`error_description` contains `"invalid_grant"`, the credential record
is deleted and `get_valid_access_token` returns `None` (absent); a
subsequent call for the same user on the resulting store returns
`None` with zero network calls. -/
theorem C3_invalid_grant_deletes (now now2 : Int) (table : Table)
    (user_id : String) (rec : Record) (desc : String)
    (resp2 : IssuerResponse)
    (hrec : table user_id = some rec)
    (hstale : rec.ms_token_expires_at = none ∨
      ∃ e, rec.ms_token_expires_at = some e ∧ e < now)
    (hig : containsSubstr "invalid_grant" desc = true) :
    (get_valid_access_token now false user_id
        (.errorResp (some desc)) table).ret = Except.ok none
    ∧ (get_valid_access_token now false user_id
        (.errorResp (some desc)) table).table user_id = none
    ∧ (get_valid_access_token now2 false user_id resp2
        (get_valid_access_token now false user_id
          (.errorResp (some desc)) table).table).ret = Except.ok none
    ∧ (get_valid_access_token now2 false user_id resp2
        (get_valid_access_token now false user_id
          (.errorResp (some desc)) table).table).networkCalls = 0 := by
  have key : get_valid_access_token now false user_id
        (.errorResp (some desc)) table
      = refresh_and_save_tokens now user_id rec.ms_refresh_token
          (.errorResp (some desc)) table := by
    rcases hstale with hn | ⟨e, he, hlt⟩
    · simp [get_valid_access_token, get_tokens_for_user, hrec, hn]
    · simp [get_valid_access_token, get_tokens_for_user, hrec, he, hlt]
  have hdel : (refresh_and_save_tokens now user_id rec.ms_refresh_token
      (.errorResp (some desc)) table).table user_id = none := by
    simp [refresh_and_save_tokens, hig]
  refine ⟨?_, ?_, ?_, ?_⟩
  · rw [key]; simp [refresh_and_save_tokens, hig]
  · rw [key]; exact hdel
  · rw [key]
    simp [get_valid_access_token, get_tokens_for_user, hdel]
  · rw [key]
    simp [get_valid_access_token, get_tokens_for_user, hdel]

/-- Witness for C3 at a concrete store and error description. -/
theorem C3_invalid_grant_deletes_witness :
    (get_valid_access_token 2000 false "U1"
        (.errorResp (some "AADSTS70000: invalid_grant, token expired"))
        (fun u => if u = "U1" then some ⟨"tokA", "tokR", some 1000⟩ else none)).table "U1"
      = none := by
  exact (C3_invalid_grant_deletes 2000 0
    (fun u => if u = "U1" then some ⟨"tokA", "tokR", some 1000⟩ else none)
    "U1" ⟨"tokA", "tokR", some 1000⟩
    "AADSTS70000: invalid_grant, token expired" .raise rfl
    (Or.inr ⟨1000, rfl, by decide⟩) (by decide)).2.1

/-- C4 counterexample: with an expired record for `"U1"`, an issuer
error response not containing `"invalid_grant"` (a transient issuer
failure) makes `get_valid_access_token` return `Except.ok none` — the
very same outcome it returns when no credential record exists at all —
so the transient-error outcome is not distinguishable from the
'absent' outcome, contradicting the claim. -/
theorem C4_counterexample :
    (get_valid_access_token 100 false "U1"
        (.errorResp (some "AADSTS90033: temporary issue, try again"))
        (fun u => if u = "U1" then some ⟨"oldA", "oldR", some 0⟩ else none)).ret
      = Except.ok none
    ∧ (get_valid_access_token 100 false "U1"
        (.errorResp (some "AADSTS90033: temporary issue, try again"))
        (fun _ => none)).ret
      = Except.ok none := by
  exact ⟨rfl, rfl⟩

/-- C4 amended: on a refresh failure other than an invalid refresh
token the record is never mutated or deleted, so a later call can retry
from the same state; a raised network/parse error propagates as an
exception (distinguishable from 'absent'), but an issuer error body
not containing `"invalid_grant"` is swallowed into `None`, the same
value as the 'absent' outcome. -/
theorem C4_amended (now : Int) (table : Table) (user_id : String)
    (rec : Record) (desc : Option String)
    (hrec : table user_id = some rec)
    (hstale : rec.ms_token_expires_at = none ∨
      ∃ e, rec.ms_token_expires_at = some e ∧ e < now)
    (hni : containsSubstr "invalid_grant" (desc.getD "") = false) :
    (get_valid_access_token now false user_id .raise table).ret
        = Except.error ()
    ∧ (get_valid_access_token now false user_id .raise table).table = table
    ∧ (get_valid_access_token now false user_id .raise table).writes = 0
    ∧ (get_valid_access_token now false user_id .raise table).deletes = 0
    ∧ (get_valid_access_token now false user_id (.errorResp desc) table).ret
        = Except.ok none
    ∧ (get_valid_access_token now false user_id (.errorResp desc) table).table
        = table
    ∧ (get_valid_access_token now false user_id (.errorResp desc) table).writes = 0
    ∧ (get_valid_access_token now false user_id (.errorResp desc) table).deletes = 0 := by
  have key : ∀ resp, get_valid_access_token now false user_id resp table
      = refresh_and_save_tokens now user_id rec.ms_refresh_token resp table := by
    intro resp
    rcases hstale with hn | ⟨e, he, hlt⟩
    · simp [get_valid_access_token, get_tokens_for_user, hrec, hn]
    · simp [get_valid_access_token, get_tokens_for_user, hrec, he, hlt]
  rw [key, key]
  simp [refresh_and_save_tokens, hni]

/-- Witness for the amended C4 at a concrete store. -/
theorem C4_amended_witness :
    (get_valid_access_token 100 false "U1" IssuerResponse.raise
        (fun u => if u = "U1" then some ⟨"oldA", "oldR", some 0⟩ else none)).ret
      = Except.error () := by
  exact (C4_amended 100
    (fun u => if u = "U1" then some ⟨"oldA", "oldR", some 0⟩ else none)
    "U1" ⟨"oldA", "oldR", some 0⟩
    (some "AADSTS90033: temporary issue, try again") rfl
    (Or.inr ⟨0, rfl, by decide⟩) (by decide)).1

/-- C5 counterexample: immediately after the initial authorization
exchange, the record stored by `OAuthHandler.lambda_handler` has no
`ms_token_expires_at` at all — it is left unset, contradicting the
claim that it is always set to issuer expiry minus the safety margin. -/
theorem C5_counterexample :
    (oauth_store_initial "U1" "tokA" "tokR" (fun _ => none)) "U1"
      = some ⟨"tokA", "tokR", none⟩
    ∧ ((oauth_store_initial "U1" "tokA" "tokR" (fun _ => none)) "U1").bind
        Record.ms_token_expires_at = none := by
  exact ⟨rfl, rfl⟩

/-- C5 amended: every refresh sets `expires_at` to the issuer-reported
expiry minus exactly the 300-second margin, but the record created by
the initial authorization exchange has `expires_at` unset; the first
`get_valid_access_token` call on such a record therefore triggers a
refresh (one network call) rather than serving the stored token. -/
theorem C5_amended (now : Int) (table : Table)
    (user_id a rt : String) (r : Option String) (ei : Option Int)
    (resp : IssuerResponse) (rec : Record)
    (hrec : table user_id = some rec)
    (hnone : rec.ms_token_expires_at = none) :
    (oauth_store_initial user_id a rt table) user_id = some ⟨a, rt, none⟩
    ∧ (refresh_and_save_tokens now user_id rt
        (.successResp a r ei) table).table user_id
      = some ⟨a, r.getD rt, some (now + ei.getD 3600 - 300)⟩
    ∧ (get_valid_access_token now false user_id resp table).networkCalls = 1 := by
  refine ⟨by simp [oauth_store_initial], ?_, ?_⟩
  · simp [refresh_and_save_tokens]
    omega
  · have key : get_valid_access_token now false user_id resp table
        = refresh_and_save_tokens now user_id rec.ms_refresh_token resp table := by
      simp [get_valid_access_token, get_tokens_for_user, hrec, hnone]
    rw [key]
    cases resp with
    | raise => rfl
    | errorResp d => simp only [refresh_and_save_tokens]; split <;> rfl
    | successResp a r e => rfl

/-- Witness for the amended C5 at a concrete store. -/
theorem C5_amended_witness :
    (get_valid_access_token 0 false "U1" IssuerResponse.raise
        (fun u => if u = "U1" then some ⟨"tokA", "tokR", none⟩ else none)).networkCalls
      = 1 := by
  exact (C5_amended 0
    (fun u => if u = "U1" then some ⟨"tokA", "tokR", none⟩ else none)
    "U1" "a" "rt" none none .raise ⟨"tokA", "tokR", none⟩ rfl rfl).2.2

/-- C10: when the credential-store point read itself raises,
`get_valid_access_token` swallows the exception and returns `None`
with no network calls and no store mutation — exactly the output it
produces for a user with no credential record at all, so a transient
storage failure is indistinguishable at the interface from a missing
record. -/
theorem C10_lookup_failure_absent (now : Int) (user_id : String)
    (resp : IssuerResponse) (table : Table) :
    get_valid_access_token now true user_id resp table
      = ⟨Except.ok none, table, 0, 0, 0⟩
    ∧ (get_valid_access_token now true user_id resp table).ret
      = (get_valid_access_token now false user_id resp (fun _ => none)).ret := by
  exact ⟨rfl, rfl⟩

/-- The overlap check is invariant under permutation of the busy list. -/
theorem overlapsAny_perm {l₁ l₂ : List (Nat × Nat)} (h : l₁.Perm l₂)
    (s e : Nat) : overlapsAny l₁ s e = overlapsAny l₂ s e := by
  rw [Bool.eq_iff_iff]
  simp only [overlapsAny, List.any_eq_true]
  exact ⟨fun ⟨x, hx, hp⟩ => ⟨x, h.mem_iff.mp hx, hp⟩,
         fun ⟨x, hx, hp⟩ => ⟨x, h.mem_iff.mpr hx, hp⟩⟩

/-- Sorting the busy list does not change the overlap check. -/
theorem overlapsAny_sortBusy (busy : List (Nat × Nat)) (s e : Nat) :
    overlapsAny (sortBusy busy) s e = overlapsAny busy s e :=
  overlapsAny_perm (List.mergeSort_perm busy _) s e

/-- Characterization of the scan loop: a returned slot is the earliest
non-overlapping candidate on the 15-minute grid starting at
`slot_start` that fits before `day_end`; `none` means every fitting
candidate overlaps. -/
theorem findSlotLoop_spec (busy : List (Nat × Nat)) (d de : Nat)
    (s0 : Nat) :
    (∀ a b, findSlotLoop busy d de s0 = some (a, b) →
      b = a + d ∧ a + d ≤ de ∧ overlapsAny busy a b = false ∧
      (∃ k, a = s0 + 15 * k) ∧
      (∀ j, s0 + 15 * j < a →
        overlapsAny busy (s0 + 15 * j) (s0 + 15 * j + d) = true))
    ∧ (findSlotLoop busy d de s0 = none →
      ∀ k, s0 + 15 * k + d ≤ de →
        overlapsAny busy (s0 + 15 * k) (s0 + 15 * k + d) = true) := by
  induction s0 using findSlotLoop.induct busy d de with
  | case1 s h hov ih =>
    constructor
    · intro a b heq
      rw [findSlotLoop, dif_pos h, if_pos hov] at heq
      obtain ⟨hb, hle, hnov, ⟨k, hk⟩, hmin⟩ := ih.1 a b heq
      refine ⟨hb, hle, hnov, ⟨k + 1, by omega⟩, ?_⟩
      intro j hj
      rcases Nat.eq_zero_or_pos j with rfl | hjpos
      · simpa using hov
      · have hrw : s + 15 * j = (s + 15) + 15 * (j - 1) := by omega
        rw [hrw] at hj ⊢
        exact hmin (j - 1) hj
    · intro hnone
      rw [findSlotLoop, dif_pos h, if_pos hov] at hnone
      intro k hk
      rcases Nat.eq_zero_or_pos k with rfl | hkpos
      · simpa using hov
      · have hrw : s + 15 * k = (s + 15) + 15 * (k - 1) := by omega
        rw [hrw] at hk ⊢
        exact ih.2 hnone (k - 1) hk
  | case2 s h hov =>
    have hov' : overlapsAny busy s (s + d) = false := by
      cases hb : overlapsAny busy s (s + d)
      · rfl
      · exact absurd hb hov
    constructor
    · intro a b heq
      rw [findSlotLoop, dif_pos h, if_neg hov] at heq
      simp only [Option.some.injEq, Prod.mk.injEq] at heq
      obtain ⟨rfl, rfl⟩ := heq
      exact ⟨rfl, h, hov', ⟨0, by omega⟩, fun j hj => by omega⟩
    · intro hnone
      rw [findSlotLoop, dif_pos h, if_neg hov] at hnone
      simp at hnone
  | case3 s h =>
    constructor
    · intro a b heq
      rw [findSlotLoop, dif_neg h] at heq
      simp at heq
    · intro _ k hk
      exact absurd hk (by omega)

/-- C6: `find_free_time_slot` scans candidates from the window start
(08:00 = 480 min, replaced by the preferred start when given) in
15-minute steps while `candidate_start + duration ≤ 1080` (18:00),
returns the first candidate overlapping no busy interval under the
test `busy.start < candidate.end AND busy.end > candidate.start`, and
returns `none` when every fitting candidate overlaps; concretely, with
busy `[(600, 630)]` (10:00-10:30), duration 30, it returns
`(480, 510)` (08:00-08:30); a candidate touching busy
`(570, 600)` (09:30-10:00) at its endpoint (start 600) is accepted,
while the truly overlapping candidate at 585 (09:45-10:15) is
rejected and the scan moves on to 600. -/
theorem C6_scan_first_fit (busy : List (Nat × Nat)) (d : Nat)
    (pref : Option Nat) :
    (∀ a b, find_free_time_slot busy d pref = some (a, b) →
      b = a + d ∧ a + d ≤ 1080 ∧ overlapsAny busy a b = false ∧
      (∃ k, a = pref.getD 480 + 15 * k) ∧
      (∀ j, pref.getD 480 + 15 * j < a →
        overlapsAny busy (pref.getD 480 + 15 * j)
          (pref.getD 480 + 15 * j + d) = true))
    ∧ (find_free_time_slot busy d pref = none →
      ∀ k, pref.getD 480 + 15 * k + d ≤ 1080 →
        overlapsAny busy (pref.getD 480 + 15 * k)
          (pref.getD 480 + 15 * k + d) = true)
    ∧ find_free_time_slot [(600, 630)] 30 none = some (480, 510)
    ∧ find_free_time_slot [(570, 600)] 30 (some 600) = some (600, 630)
    ∧ find_free_time_slot [(570, 600)] 30 (some 585) = some (600, 630) := by
  refine ⟨?_, ?_, ?_, ?_, ?_⟩
  · intro a b heq
    have heq' : findSlotLoop (sortBusy busy) d 1080 (pref.getD 480)
        = some (a, b) := heq
    obtain ⟨hb, hle, hnov, hex, hmin⟩ :=
      (findSlotLoop_spec (sortBusy busy) d 1080 (pref.getD 480)).1 a b heq'
    refine ⟨hb, hle, by rwa [overlapsAny_sortBusy] at hnov, hex, ?_⟩
    intro j hj
    rw [← overlapsAny_sortBusy]
    exact hmin j hj
  · intro hnone k hk
    have hnone' : findSlotLoop (sortBusy busy) d 1080 (pref.getD 480)
        = none := hnone
    rw [← overlapsAny_sortBusy]
    exact (findSlotLoop_spec (sortBusy busy) d 1080 (pref.getD 480)).2
      hnone' k hk
  · simp [find_free_time_slot, sortBusy, findSlotLoop, overlapsAny]
  · simp [find_free_time_slot, sortBusy, findSlotLoop, overlapsAny]
  · simp [find_free_time_slot, sortBusy, findSlotLoop, overlapsAny]

/-- Witness for C6: the spec's concrete scenario. -/
theorem C6_scan_first_fit_witness :
    find_free_time_slot [(600, 630)] 30 none = some (480, 510) := by
  exact (C6_scan_first_fit [(600, 630)] 30 none).2.2.1

/-- C7 counterexample: an input whose busy interval bounds are naive
instants (no timezone information) does not make the engine fail — it
returns a normal slot, the same answer as for the identical
timezone-aware input, because naive instants are silently stamped with
UTC. -/
theorem C7_counterexample :
    find_free_time_slot_ev [(⟨600, false⟩, ⟨630, false⟩)] 30 none
      = some (480, 510)
    ∧ find_free_time_slot_ev [(⟨600, false⟩, ⟨630, false⟩)] 30 none
      = find_free_time_slot_ev [(⟨600, true⟩, ⟨630, true⟩)] 30 none := by
  constructor
  · simp [find_free_time_slot_ev, ensureTzAware, find_free_time_slot,
      sortBusy, findSlotLoop, overlapsAny]
  · simp [find_free_time_slot_ev, ensureTzAware]

/-- C7 amended: the engine never fails fast on a naive instant;
instead each naive bound is silently assumed to be UTC — its clock
value is kept and it is marked timezone-aware — after which all
instants are compared in that single zone, so the result on any input
equals the result on the corresponding fully timezone-aware input. -/
theorem C7_naive_assumed_utc
    (events : List (ParsedInstant × ParsedInstant)) (d : Nat)
    (pref : Option Nat) (m : Nat) :
    ensureTzAware ⟨m, false⟩ = ⟨m, true⟩
    ∧ find_free_time_slot_ev events d pref
      = find_free_time_slot_ev
          (events.map (fun p => (ensureTzAware p.1, ensureTzAware p.2)))
          d pref := by
  have hm : ∀ i : ParsedInstant, (ensureTzAware i).minutes = i.minutes := by
    intro i
    unfold ensureTzAware
    split <;> rfl
  constructor
  · rfl
  · have hfun : (fun p : ParsedInstant × ParsedInstant =>
          ((ensureTzAware p.1).minutes, (ensureTzAware p.2).minutes))
        = ((fun p : ParsedInstant × ParsedInstant =>
            ((ensureTzAware p.1).minutes, (ensureTzAware p.2).minutes))
          ∘ (fun p => (ensureTzAware p.1, ensureTzAware p.2))) := by
      funext p
      simp [Function.comp, hm]
    simp only [find_free_time_slot_ev, List.map_map]
    rw [← hfun]

/-- C8: when the first subprocess invocation yields a provider response
whose error text (lowercased) contains `"authentication"` or
`"login"`, `call_mcp_tool` returns the `authentication_required`
classification after exactly one invocation — the list of sent
requests is the single envelope — performing no retry. -/
theorem C8_auth_no_retry (world : Nat → MCPRequest → SubprocResult)
    (max_retries : Nat) (tool : String)
    (params : List (String × String)) (info : String)
    (htool : tool ∈ available_tools)
    (hresp : world 0 (create_mcp_request tool params)
      = .response (.error info))
    (hauth : (containsSubstr "authentication" (pyLower info)
        || containsSubstr "login" (pyLower info)) = true) :
    call_mcp_tool world max_retries tool params
      = (CallResult.authRequired, [create_mcp_request tool params]) := by
  simp only [call_mcp_tool, if_pos htool, call_mcp_tool_loop,
    execute_mcp_subprocess, hresp, process_mcp_response, hauth, if_pos]

/-- Witness for C8: an authentication error on the first attempt. -/
theorem C8_auth_no_retry_witness :
    call_mcp_tool
      (fun _ _ => .response (.error "authentication required, please login"))
      2 "get-current-user" []
      = (CallResult.authRequired,
         [create_mcp_request "get-current-user" []]) := by
  exact C8_auth_no_retry
    (fun _ _ => .response (.error "authentication required, please login"))
    2 "get-current-user" [] "authentication required, please login"
    (by decide) rfl (by decide)

/-- C9: transport-level failures (classified `None` by
`_execute_mcp_subprocess`: timeout, crash, malformed stdout or invalid
response shape) are retried with the same request envelope; with the
default `max_retries = 2`, two failures followed by a success on the
third attempt yield the success result with exactly three invocations
of the same envelope, and three failures yield the
`max_retries_exceeded` classification after exactly three
invocations. -/
theorem C9_transport_retry (world worldF : Nat → MCPRequest → SubprocResult)
    (tool : String) (params : List (String × String)) (d : String)
    (htool : tool ∈ available_tools)
    (h0 : execute_mcp_subprocess
      (world 0 (create_mcp_request tool params)) = none)
    (h1 : execute_mcp_subprocess
      (world 1 (create_mcp_request tool params)) = none)
    (h2 : world 2 (create_mcp_request tool params)
      = .response (.result d))
    (hf : ∀ i, i < 3 → execute_mcp_subprocess
      (worldF i (create_mcp_request tool params)) = none) :
    call_mcp_tool world 2 tool params
      = (CallResult.ok d,
         [create_mcp_request tool params, create_mcp_request tool params,
          create_mcp_request tool params])
    ∧ call_mcp_tool worldF 2 tool params
      = (CallResult.maxRetriesExceeded tool,
         [create_mcp_request tool params, create_mcp_request tool params,
          create_mcp_request tool params]) := by
  constructor
  · simp only [call_mcp_tool, if_pos htool, call_mcp_tool_loop,
      Nat.reduceAdd]
    simp only [h0, h1]
    simp only [execute_mcp_subprocess, h2, process_mcp_response]
  · simp only [call_mcp_tool, if_pos htool, call_mcp_tool_loop,
      Nat.reduceAdd]
    simp only [hf 0 (by omega), hf 1 (by omega), hf 2 (by omega)]

/-- Witness for C9: timeouts on the first two attempts, success on the
third; and a world that always times out. -/
theorem C9_transport_retry_witness :
    call_mcp_tool
      (fun i _ => if i < 2 then .timeout else .response (.result "done"))
      2 "list-calendar-events" []
      = (CallResult.ok "done",
         [create_mcp_request "list-calendar-events" [],
          create_mcp_request "list-calendar-events" [],
          create_mcp_request "list-calendar-events" []]) := by
  exact (C9_transport_retry
    (fun i _ => if i < 2 then .timeout else .response (.result "done"))
    (fun _ _ => .timeout) "list-calendar-events" [] "done"
    (by decide) rfl rfl rfl (fun i _ => rfl)).1
